import Mathlib

set_option maxHeartbeats 1000000

/-!
Shallow embedding of `src/metadata.py` (TeMU-BSC/metadata).

The Python module defines a process-wide registry (`GlobalInformation`,
whose `used_attributes` is either `None` or a dict
`{class_name: {attribute_name: [values]}}`) and three validated record
classes (`Action`, `CorpusVersion`, `Corpus`) that check their fields with
`assert` statements and then record attribute values into the registry.

Modelling decisions:
  - Python `assert` failures are `Err.assertionError`; a missing attribute in
    `__getattribute__` is `Err.attributeError`; operations on a value of the
    wrong runtime type (`None.exists()`, `Path[-3:]`, `len(None)`) are
    `Err.attributeError` / `Err.typeError`; `datetime.strptime` and
    `json.loads` failures are `Err.valueError`.
  - Python dicts are insertion-ordered association lists
    (`List (String × _)`); updating an existing key keeps its position and a
    new key is appended at the end, exactly as in CPython 3.7+.
  - `pathlib.Path` values are carried as their string, but in positions where
    Python compares values of different runtime types (set membership in
    `_check_prev`, dedup in `_add_global_attributes`) they are wrapped in the
    universal `Value` type whose constructors are disjoint, mirroring the fact
    that `str == PosixPath`, `str == None`, etc. are `False` in Python.
  - The file system is a parameter `FS` giving `Path.exists` / `Path.is_file`
    for each path string; `Path.is_absolute` and `Path.name` follow POSIX
    rules.
  - State-mutating operations take the registry (an
    `Option RegistryMap`, `none` standing for an uninitialized
    `used_attributes`) and return the new registry together with either an
    error or a result; mutations performed before an exception is raised are
    kept, exactly as in Python.
-/

namespace Metadata

inductive Err where
  | assertionError
  | attributeError
  | typeError
  | valueError
deriving DecidableEq, Repr

/-- Result of `datetime.strptime(date, s)` (section of `datetime` used by
`CorpusVersion.__init__`). -/
structure DateTime where
  year : Nat
  month : Nat
  day : Nat
  hour : Nat
  minute : Nat
  second : Nat
deriving DecidableEq, Repr

/-- The fields of a constructed `Action` object (`src/metadata.py`,
lines 144-163).  `script` is an optional `pathlib.Path`, carried as its
string. -/
structure Action where
  name : String
  src : String
  tgt : String
  script : Option String
  order : Int
deriving DecidableEq, Repr

/-- The fields of a constructed `CorpusVersion` object (`src/metadata.py`,
lines 179-223).  `date` holds the already-parsed `datetime`; `path` is a
`pathlib.Path` carried as its string. -/
structure CorpusVersion where
  date : DateTime
  prev : Option String
  path : String
  provider : String
  langs : List String
  parallel : Bool
  encoding : String
  format : String
  released : Option String
  license : Option String
  actions : List Action
deriving DecidableEq, Repr

/-- The fields of a constructed `Corpus` object (`src/metadata.py`,
lines 254-268). -/
structure Corpus where
  dir_name : String
  pretty_name : String
  corpus_versions : List CorpusVersion
deriving DecidableEq, Repr

/-- Universal type of Python runtime values that can appear as an attribute
value of one of the three record classes.  Constructors are disjoint, so
`==` on `Value` agrees with Python `==` across the types that actually occur
(`str == PosixPath`, `str == None`, `PosixPath == None`, ... are all
`False`; within one constructor the comparison is structural). -/
inductive Value where
  | str (s : String)
  | int (n : Int)
  | bool (b : Bool)
  | pynone
  | dt (d : DateTime)
  | path (p : String)
  | strList (l : List String)
  | actionList (l : List Action)
  | cvList (l : List CorpusVersion)
deriving DecidableEq, Repr

/-- `GlobalInformation.used_attributes` when initialized: the dict
`{class_name: {attribute_name: [attribute_values]}}`, as an
insertion-ordered association list. -/
abbrev RegistryMap := List (String × List (String × List Value))

/-- Python dict lookup `l[k]` as an option. -/
def assocGet {α : Type} (l : List (String × α)) (k : String) : Option α :=
  match l with
  | [] => Option.none
  | (k', v) :: t => if k' == k then some v else assocGet t k

/-- Python dict assignment `l[k] = v`: an existing key keeps its position,
a new key is appended at the end (CPython insertion order). -/
def assocSet {α : Type} (l : List (String × α)) (k : String) (v : α) :
    List (String × α) :=
  match l with
  | [] => [(k, v)]
  | (k', v') :: t => if k' == k then (k, v) :: t else (k', v') :: assocSet t k v

/-- `Component._allow_new` (`src/metadata.py`, lines 112-121). -/
def allowNew (attribute_name : String) : Bool :=
  !(["format", "encoding", "langs"].contains attribute_name)

/-- The body of one loop iteration of `Component._add_global_attributes`
(`src/metadata.py`, lines 105-110): ensure `d[class_name]` and
`d[class_name][attribute_name]` exist, then append the value if it is not
already present. -/
def recordOne (class_name attribute_name : String) (attribute_value : Value)
    (d : RegistryMap) : RegistryMap :=
  let inner := (assocGet d class_name).getD []
  let vals := (assocGet inner attribute_name).getD []
  let vals' := if vals.contains attribute_value then vals
               else vals ++ [attribute_value]
  assocSet d class_name (assocSet inner attribute_name vals')

/-- `Component._add_global_attributes` (`src/metadata.py`, lines 94-110).
`getattr` models `self.__getattribute__` (`Option.none` = the attribute does
not exist, raising `AttributeError`).  Note that the source has `return`
(not `continue`) when `_allow_new` is false, so the remaining names of the
list are skipped.  The returned map keeps all mutations made before an
error. -/
def addGlobalAttributes (class_name : String) (getattr : String → Option Value) :
    List String → RegistryMap → RegistryMap × Option Err
  | [], d => (d, Option.none)
  | attribute_name :: rest, d =>
    if !(allowNew attribute_name) then
      (d, Option.none)
    else
      match getattr attribute_name with
      | Option.none => (d, some Err.attributeError)
      | some v =>
        addGlobalAttributes class_name getattr rest
          (recordOne class_name attribute_name v d)

/-- The file system, as seen through `pathlib.Path.exists` and
`pathlib.Path.is_file`. -/
structure FS where
  existsFile : String → Bool
  isFile : String → Bool

/-- Python `str.lower`, characterwise (`Char.toLower`; the strings in play
are ASCII).  Defined over the character list so that it reduces in the
kernel. -/
def pyLower (s : String) : String := String.mk (s.data.map Char.toLower)

/-- Python `c in s` for a single character. -/
def strContainsChar (s : String) (c : Char) : Bool := s.data.contains c

/-- Splits a character list at every occurrence of `sep`. -/
def splitCharAux (sep : Char) : List Char → List Char → List String
  | [], acc => [String.mk acc.reverse]
  | c :: t, acc =>
    if c == sep then String.mk acc.reverse :: splitCharAux sep t []
    else splitCharAux sep t (c :: acc)

/-- Splits a string at every occurrence of the character `sep`. -/
def splitChar (s : String) (sep : Char) : List String := splitCharAux sep s.data []

/-- Value of a fixed-width decimal digit string. -/
def digitsToNat (l : List Char) : Nat :=
  l.foldl (fun a c => a * 10 + (c.toNat - 48)) 0

/-- `pathlib.PurePosixPath.is_absolute`. -/
def isAbsolute (p : String) : Bool :=
  match p.data with
  | c :: _ => c == '/'
  | [] => false

/-- `pathlib.PurePosixPath.name`: the final path component. -/
def pathName (p : String) : String := ((splitChar p '/').getLast?).getD ""

/-- The `LANGS` table (`src/metadata.py`, lines 8-18). -/
def LANGS : List String :=
  ["ab", "aa", "af", "ak", "sq", "am", "ar", "an", "hy", "as", "av", "ae",
   "ay", "az", "bm", "ba", "eu", "be", "bn", "bh", "bi", "bs", "br", "bg",
   "my", "ca", "ch", "ce", "ny", "zh", "cv", "kw", "co", "cr", "hr", "cs",
   "da", "dv", "nl", "dz", "en", "eo", "et", "ee", "fo", "fj", "fi", "fr",
   "ff", "gl", "ka", "de", "el", "gn", "gu", "ht", "ha", "he", "hz", "hi",
   "ho", "hu", "ia", "id", "ie", "ga", "ig", "ik", "io", "is", "it", "iu",
   "ja", "jv", "kl", "kn", "kr", "ks", "kk", "km", "ki", "rw", "ky", "kv",
   "kg", "ko", "ku", "kj", "la", "lb", "lg", "li", "ln", "lo", "lt", "lu",
   "lv", "gv", "mk", "mg", "ms", "ml", "mt", "mi", "mr", "mh", "mn", "na",
   "nv", "nb", "nd", "ne", "ng", "nn", "no", "ii", "nr", "oc", "oj", "cu",
   "om", "or", "os", "pa", "pi", "fa", "pl", "ps", "pt", "qu", "rm", "rn",
   "ro", "ru", "sa", "sc", "sd", "se", "sm", "sg", "sr", "gd", "sn", "si",
   "sk", "sl", "so", "st", "es", "su", "sw", "ss", "sv", "ta", "te", "tg",
   "th", "ti", "bo", "tk", "tl", "tn", "to", "tr", "ts", "tt", "tw", "ty",
   "ug", "uk", "ur", "uz", "ve", "vi", "vo", "wa", "cy", "wo", "fy", "xh",
   "yi", "yo", "za", "zu"]

/-- The `FORMATS` table (`src/metadata.py`, line 20). -/
def FORMATS : List String := ["pdf", "json", "xml", "txt"]

/-- The `ENCODINGS` table (`src/metadata.py`, lines 22-33). -/
def ENCODINGS : List String :=
  ["ascii", "big5", "big5hkscs", "cp037", "cp273", "cp424", "cp437",
   "cp500", "cp720", "cp737", "cp775", "cp850", "cp852", "cp855", "cp856",
   "cp857", "cp858", "cp860", "cp861", "cp862", "cp863", "cp864", "cp865",
   "cp866", "cp869", "cp874", "cp875", "cp932", "cp949", "cp950", "cp1006",
   "cp1026", "cp1125", "cp1140", "cp1250", "cp1251", "cp1252", "cp1253",
   "cp1254", "cp1255", "cp1256", "cp1257", "cp1258", "cp65001", "euc-jp",
   "euc-jis-2004", "euc-jisx0213", "euc-kr", "gb2312", "gbk", "gb18030",
   "hz", "iso2022-jp", "iso2022-jp-1", "iso2022-jp-2", "iso2022-jp-2004",
   "iso2022-jp-3", "iso2022-jp-ext", "iso2022-kr", "latin-1", "iso8859-2",
   "iso8859-3", "iso8859-4", "iso8859-5", "iso8859-6", "iso8859-7",
   "iso8859-8", "iso8859-9", "iso8859-10", "iso8859-11", "iso8859-13",
   "iso8859-14", "iso8859-15", "iso8859-16", "johab", "koi8-r", "koi8-t",
   "koi8-u", "kz1048", "mac-cyrillic", "mac-greek", "mac-iceland",
   "mac-latin2", "mac-roman", "mac-turkish", "ptcp154", "shift-jis",
   "shift-jis-2004", "shift-jisx0213", "utf-32", "utf-32-be", "utf-32-le",
   "utf-16", "utf-16-be", "utf-16-le", "utf-7", "utf-8", "utf-8-sig"]

/-- Leap-year rule used by `datetime`. -/
def isLeap (y : Nat) : Bool := (y % 4 == 0 && y % 100 != 0) || y % 400 == 0

/-- Number of days of a month, as validated by `datetime`. -/
def daysInMonth (y m : Nat) : Nat :=
  if m == 2 then (if isLeap y then 29 else 28)
  else if m == 4 || m == 6 || m == 9 || m == 11 then 30
  else 31

/-- Modelled from the Python standard library:
`datetime.strptime(date, '%Y%m%dT%H%M%S')` for the fixed-width form used by
`CorpusVersion.__init__` — four year digits, two digits for each other
field, a literal `T` at index 8; field ranges validated as by the
`datetime` constructor.  A non-matching string raises `ValueError`. -/
def strptime (s : String) : Except Err DateTime :=
  let cs := s.data
  let y := cs.take 4
  let mo := (cs.drop 4).take 2
  let d := (cs.drop 6).take 2
  let t := (cs.drop 8).take 1
  let h := (cs.drop 9).take 2
  let mi := (cs.drop 11).take 2
  let se := (cs.drop 13).take 2
  if cs.length == 15 && t == ['T'] &&
     [y, mo, d, h, mi, se].all (fun x => x.all Char.isDigit) then
    let yn := digitsToNat y
    let mon := digitsToNat mo
    let dn := digitsToNat d
    let hn := digitsToNat h
    let min_ := digitsToNat mi
    let sen := digitsToNat se
    if 1 ≤ yn && 1 ≤ mon && mon ≤ 12 && 1 ≤ dn && dn ≤ daysInMonth yn mon &&
       hn ≤ 23 && min_ ≤ 59 && sen ≤ 59 then
      Except.ok ⟨yn, mon, dn, hn, min_, sen⟩
    else Except.error Err.valueError
  else Except.error Err.valueError

/-- `self.__getattribute__` for `Action` objects: the attributes set in
`Action.__init__` (`src/metadata.py`, lines 157-161). -/
def Action.getattr (a : Action) (attribute_name : String) : Option Value :=
  match attribute_name with
  | "name" => some (Value.str a.name)
  | "src" => some (Value.str a.src)
  | "tgt" => some (Value.str a.tgt)
  | "script" => some (match a.script with
                      | Option.none => Value.pynone
                      | some p => Value.path p)
  | "order" => some (Value.int a.order)
  | _ => Option.none

/-- `Action._check_fields` (`src/metadata.py`, lines 165-176), assert by
assert, with Python left-to-right short-circuit evaluation.  Line 173
evaluates `self.script.exists()` before the `or self.script is None`
alternative, so a missing script raises `AttributeError` on `None`; when the
script is present and passes line 173, line 174 evaluates
`self.script[-3:]`, and a `pathlib.Path` is not subscriptable, raising
`TypeError`. -/
def Action.checkFields (fs : FS) (a : Action) : Option Err :=
  if !(a.name.length > 0) then some Err.assertionError
  else if !(pyLower a.name == a.name) then some Err.assertionError
  else if !(a.src.length > 0) then some Err.assertionError
  else if !(pyLower a.src == a.src) then some Err.assertionError
  else if !(a.tgt.length > 0) then some Err.assertionError
  else if !(pyLower a.tgt == a.tgt) then some Err.assertionError
  else if !(a.script.isSome || a.order == 0) then some Err.assertionError
  else
    match a.script with
    | Option.none => some Err.attributeError
    | some s =>
      if fs.existsFile s && fs.isFile s && !(isAbsolute s) then
        some Err.typeError
      else some Err.assertionError

/-- `Action.__init__` (`src/metadata.py`, lines 144-163):
`Component.__init__` asserts the registry is initialized, the fields are
set, `_check_fields` runs, then
`_add_global_attributes(['name', 'src', 'tgt', 'script', 'order'])`. -/
def Action.init (fs : FS) (name src tgt : String) (script : Option String)
    (order : Int) (g : Option RegistryMap) :
    Option RegistryMap × Except Err Action :=
  match g with
  | Option.none => (Option.none, Except.error Err.assertionError)
  | some d =>
    let a : Action := ⟨name, src, tgt, script, order⟩
    match Action.checkFields fs a with
    | some e => (some d, Except.error e)
    | Option.none =>
      match addGlobalAttributes "Action" a.getattr
          ["name", "src", "tgt", "script", "order"] d with
      | (d', some e) => (some d', Except.error e)
      | (d', Option.none) => (some d', Except.ok a)

/-- Modelled from the Python standard library: the scheme/netloc part of
`urllib.parse.urlparse` as used by `CorpusVersion._check_released`
(`is_url` requires both `result.scheme` and `result.netloc` to be
non-empty).  The scheme is the part before `://` when it is a valid scheme
name; the netloc is the part between `//` and the next `/`. -/
def isUrl (u : String) : Bool :=
  let scheme := u.data.takeWhile (fun c => c != ':')
  let rest := u.data.dropWhile (fun c => c != ':')
  match rest with
  | ':' :: '/' :: '/' :: r =>
    scheme.length > 0 &&
    (scheme.headD ' ').isAlpha &&
    scheme.all (fun c => c.isAlpha || c.isDigit || c == '+' || c == '-' || c == '.') &&
    (r.takeWhile (fun c => c != '/')).length > 0
  | _ => false

/-- `CorpusVersion._check_released` (`src/metadata.py`, lines 239-251). -/
def CorpusVersion.checkReleased (cv : CorpusVersion) : Bool :=
  match cv.released with
  | Option.none => true
  | some u => isUrl u

/-- `self.__getattribute__` for `CorpusVersion` objects: the attributes set
in `CorpusVersion.__init__` (`src/metadata.py`, lines 210-220).  There is no
attribute named `lang` (the list is stored as `langs`), so looking it up
raises `AttributeError`. -/
def CorpusVersion.getattr (cv : CorpusVersion) (attribute_name : String) :
    Option Value :=
  match attribute_name with
  | "date" => some (Value.dt cv.date)
  | "prev" => some (match cv.prev with
                    | Option.none => Value.pynone
                    | some s => Value.str s)
  | "path" => some (Value.path cv.path)
  | "provider" => some (Value.str cv.provider)
  | "langs" => some (Value.strList cv.langs)
  | "parallel" => some (Value.bool cv.parallel)
  | "encoding" => some (Value.str cv.encoding)
  | "format" => some (Value.str cv.format)
  | "released" => some (match cv.released with
                        | Option.none => Value.pynone
                        | some s => Value.str s)
  | "license" => some (match cv.license with
                       | Option.none => Value.pynone
                       | some s => Value.str s)
  | "actions" => some (Value.actionList cv.actions)
  | _ => Option.none

/-- `CorpusVersion._check_fields` (`src/metadata.py`, lines 225-237), assert
by assert.  Line 227 is
`assert '/' not in self.path.name and not '\\' not in self.path.name`:
since `not in` binds tighter than `not`, the second conjunct is
`'\\' in self.path.name`, i.e. the filename is required to CONTAIN a
backslash.  The final assert calls `len(self.license)`, which raises
`TypeError` when the license is `None`. -/
def CorpusVersion.checkFields (fs : FS) (cv : CorpusVersion) : Option Err :=
  if !(fs.existsFile cv.path && fs.isFile cv.path && !(isAbsolute cv.path)) then
    some Err.assertionError
  else if !(!(strContainsChar (pathName cv.path) '/') &&
            strContainsChar (pathName cv.path) '\\') then
    some Err.assertionError
  else if !(cv.provider.length > 0) then some Err.assertionError
  else if !(pyLower cv.provider == cv.provider) then some Err.assertionError
  else if !(cv.langs.all (fun lang => LANGS.contains lang)) then
    some Err.assertionError
  else if !(cv.langs.length > 0) then some Err.assertionError
  else if !((cv.langs.length > 1 && cv.parallel) || !cv.parallel) then
    some Err.assertionError
  else if !(ENCODINGS.contains cv.encoding) then some Err.assertionError
  else if !(FORMATS.contains cv.format) then some Err.assertionError
  else if !cv.checkReleased then some Err.assertionError
  else
    match cv.license with
    | Option.none => some Err.typeError
    | some lic =>
      if !(lic.length > 0 && pyLower lic == lic) then some Err.assertionError
      else Option.none

/-- `CorpusVersion.__init__` (`src/metadata.py`, lines 179-223):
`Component.__init__` asserts the registry is initialized, the date string is
parsed with `strptime`, the fields are set, `_check_fields` runs, then
`_add_global_attributes(['date', 'prev', 'path', 'provider', 'lang',
'parallel', 'encoding', 'format', 'released', 'actions'])` (note the
misspelt `lang`). -/
def CorpusVersion.init (fs : FS) (date : String) (prev : Option String)
    (path : String) (provider : String) (langs : List String)
    (parallel : Bool) (encoding : String) (format_ : String)
    (released : Option String) (license_ : Option String)
    (actions : List Action) (g : Option RegistryMap) :
    Option RegistryMap × Except Err CorpusVersion :=
  match g with
  | Option.none => (Option.none, Except.error Err.assertionError)
  | some d =>
    match strptime date with
    | Except.error e => (some d, Except.error e)
    | Except.ok dt =>
      let cv : CorpusVersion :=
        ⟨dt, prev, path, provider, langs, parallel, encoding, format_,
         released, license_, actions⟩
      match CorpusVersion.checkFields fs cv with
      | some e => (some d, Except.error e)
      | Option.none =>
        match addGlobalAttributes "CorpusVersion" cv.getattr
            ["date", "prev", "path", "provider", "lang", "parallel",
             "encoding", "format", "released", "actions"] d with
        | (d', some e) => (some d', Except.error e)
        | (d', Option.none) => (some d', Except.ok cv)

/-- `self.__getattribute__` for `Corpus` objects: the attributes set in
`Corpus.__init__` (`src/metadata.py`, lines 264-266).  There is no attribute
named `dirname` (the field is `dir_name`), so looking it up raises
`AttributeError`. -/
def Corpus.getattr (c : Corpus) (attribute_name : String) : Option Value :=
  match attribute_name with
  | "dir_name" => some (Value.str c.dir_name)
  | "pretty_name" => some (Value.str c.pretty_name)
  | "corpus_versions" => some (Value.cvList c.corpus_versions)
  | _ => Option.none

/-- `Corpus._check_prev` (`src/metadata.py`, lines 277-292).  The first
version's `prev` must be `None`; each later version's `prev` (a `str` or
`None`) is tested for membership of the set of `path` values (which are
`pathlib.Path` objects) — in Python a `str` or `None` never equals a
`Path`, which the disjoint `Value` constructors mirror.  The empty-list
case is unreachable: it sits behind the
`assert len(self.corpus_versions) > 0` of `_check_fields` (Python would
raise `IndexError` there). -/
def Corpus.checkPrev : List CorpusVersion → Bool
  | [] => false
  | cv0 :: rest =>
    match cv0.prev with
    | some _ => false
    | Option.none =>
      let paths := (cv0 :: rest).map (fun cv => Value.path cv.path)
      rest.all (fun cv =>
        paths.contains (match cv.prev with
                        | Option.none => Value.pynone
                        | some s => Value.str s))

/-- `Corpus._check_fields` (`src/metadata.py`, lines 270-275). -/
def Corpus.checkFields (c : Corpus) : Option Err :=
  if !(c.dir_name.length > 0) then some Err.assertionError
  else if !(pyLower c.dir_name == c.dir_name) then some Err.assertionError
  else if !(c.pretty_name.length > 0) then some Err.assertionError
  else if !(c.corpus_versions.length > 0) then some Err.assertionError
  else if !(Corpus.checkPrev c.corpus_versions) then some Err.assertionError
  else Option.none

/-- `Corpus.__init__` (`src/metadata.py`, lines 254-268):
`Component.__init__` asserts the registry is initialized, the fields are
set, `_check_fields` runs, then
`_add_global_attributes(['dirname', 'pretty_name', 'corpus_versions'])`
(note the misspelt `dirname`). -/
def Corpus.init (dir_name pretty_name : String)
    (corpus_versions : List CorpusVersion) (g : Option RegistryMap) :
    Option RegistryMap × Except Err Corpus :=
  match g with
  | Option.none => (Option.none, Except.error Err.assertionError)
  | some d =>
    let c : Corpus := ⟨dir_name, pretty_name, corpus_versions⟩
    match Corpus.checkFields c with
    | some e => (some d, Except.error e)
    | Option.none =>
      match addGlobalAttributes "Corpus" c.getattr
          ["dirname", "pretty_name", "corpus_versions"] d with
      | (d', some e) => (some d', Except.error e)
      | (d', Option.none) => (some d', Except.ok c)

/-- JSON data trees, as produced by `json.loads` / consumed by
`json.dumps`.  The persisted registry file is modelled at this level: a
well-formed JSON text and its value tree are in bijection, so reading and
parsing the file is the identity on the tree. -/
inductive Json where
  | str (s : String)
  | int (n : Int)
  | bool (b : Bool)
  | null
  | arr (l : List Json)
  | obj (l : List (String × Json))
deriving Repr

/-- `json.dumps` on one attribute value.  Scalars and lists of strings are
JSON-serializable; `datetime`, `pathlib.Path`, and `Action` /
`CorpusVersion` objects make `json.dumps` raise
`TypeError: Object of type ... is not JSON serializable`.  (Object-valued
lists are modelled as raising even when empty; such values can only enter
the registry through the `actions` / `corpus_versions` recordings, which
are never reached because the `lang` / `dirname` lookups before them raise
`AttributeError`.) -/
def valueToJson : Value → Except Err Json
  | Value.str s => Except.ok (Json.str s)
  | Value.int n => Except.ok (Json.int n)
  | Value.bool b => Except.ok (Json.bool b)
  | Value.pynone => Except.ok Json.null
  | Value.dt _ => Except.error Err.typeError
  | Value.path _ => Except.error Err.typeError
  | Value.strList l => Except.ok (Json.arr (l.map Json.str))
  | Value.actionList _ => Except.error Err.typeError
  | Value.cvList _ => Except.error Err.typeError

/-- `json.dumps` on one recorded value list. -/
def valsToJson : List Value → Except Err (List Json)
  | [] => Except.ok []
  | v :: t =>
    match valueToJson v, valsToJson t with
    | Except.ok j, Except.ok js => Except.ok (j :: js)
    | Except.error e, _ => Except.error e
    | _, Except.error e => Except.error e

/-- `json.dumps` on one `{attribute_name: [values]}` dict. -/
def innerToJson : List (String × List Value) → Except Err (List (String × Json))
  | [] => Except.ok []
  | (an, vs) :: t =>
    match valsToJson vs, innerToJson t with
    | Except.ok js, Except.ok rest => Except.ok ((an, Json.arr js) :: rest)
    | Except.error e, _ => Except.error e
    | _, Except.error e => Except.error e

/-- `json.dumps` on the outer `{class_name: {...}}` dict. -/
def outerToJson : RegistryMap → Except Err (List (String × Json))
  | [] => Except.ok []
  | (cn, inner) :: t =>
    match innerToJson inner, outerToJson t with
    | Except.ok i, Except.ok rest => Except.ok ((cn, Json.obj i) :: rest)
    | Except.error e, _ => Except.error e
    | _, Except.error e => Except.error e

/-- `json.dumps(self.used_attributes)`. -/
def registryToJson (d : RegistryMap) : Except Err Json :=
  (outerToJson d).map Json.obj

/-- Reads a JSON array of strings back into the list of strings. -/
def jsonStrs : List Json → Option (List String)
  | [] => some []
  | Json.str s :: t => (jsonStrs t).map (fun l => s :: l)
  | _ :: _ => Option.none

/-- `json.loads` on one attribute value. -/
def jsonToValue : Json → Option Value
  | Json.str s => some (Value.str s)
  | Json.int n => some (Value.int n)
  | Json.bool b => some (Value.bool b)
  | Json.null => some Value.pynone
  | Json.arr js => (jsonStrs js).map Value.strList
  | Json.obj _ => Option.none

/-- `json.loads` on one recorded value list. -/
def jsonVals : List Json → Option (List Value)
  | [] => some []
  | j :: t =>
    match jsonToValue j, jsonVals t with
    | some v, some vs => some (v :: vs)
    | _, _ => Option.none

/-- `json.loads` on one `{attribute_name: [values]}` dict. -/
def jsonInner : List (String × Json) → Option (List (String × List Value))
  | [] => some []
  | (an, Json.arr js) :: t =>
    match jsonVals js, jsonInner t with
    | some vs, some rest => some ((an, vs) :: rest)
    | _, _ => Option.none
  | _ :: _ => Option.none

/-- `json.loads` on the outer `{class_name: {...}}` dict. -/
def jsonOuter : List (String × Json) → Option RegistryMap
  | [] => some []
  | (cn, Json.obj attrs) :: t =>
    match jsonInner attrs, jsonOuter t with
    | some i, some rest => some ((cn, i) :: rest)
    | _, _ => Option.none
  | _ :: _ => Option.none

/-- Decoding of a loaded JSON tree into a registry mapping.  A tree that is
not a nested string-keyed mapping of arrays of attribute values does not
represent a registry. -/
def jsonToRegistry : Json → Option RegistryMap
  | Json.obj outer => jsonOuter outer
  | _ => Option.none

/-- `GlobalInformation.load_from_disk` (`src/metadata.py`, lines 45-53):
`assert self.used_attributes is None`, then the file is read and parsed.
The state is `Option RegistryMap` (`Option.none` = the uninitialized
`used_attributes`); the result pairs the new state with the raised error, if
any.  A file whose JSON tree does not have the registry shape is modelled as
a failed load. -/
def GlobalInformation.loadFromDisk (g : Option RegistryMap) (file : Json) :
    Option RegistryMap × Option Err :=
  match g with
  | some d => (some d, some Err.assertionError)
  | Option.none =>
    match jsonToRegistry file with
    | some d => (some d, Option.none)
    | Option.none => (Option.none, some Err.valueError)

/-- `GlobalInformation.write_to_disk` (`src/metadata.py`, lines 55-63):
`assert self.used_attributes is not None`, then
`json.dumps(self.used_attributes)` is written; the result is the written
file content. -/
def GlobalInformation.writeToDisk (g : Option RegistryMap) : Except Err Json :=
  match g with
  | Option.none => Except.error Err.assertionError
  | some d => registryToJson d

/-- `GlobalInformation.init_dict` (`src/metadata.py`, lines 65-72):
`assert self.used_attributes is None`, then the registry becomes the empty
dict. -/
def GlobalInformation.initDict (g : Option RegistryMap) :
    Option RegistryMap × Option Err :=
  match g with
  | some d => (some d, some Err.assertionError)
  | Option.none => (some [], Option.none)

/-- A concrete file system used by the concrete inputs of the theorems
below: each listed relative path exists and is a regular file. -/
def fs0 : FS :=
  { existsFile := fun p =>
      ["clean.sh", "corpus1/data.txt", "data.txt", "da\\ta.txt",
       "corpus1/da\\ta.txt"].contains p,
    isFile := fun p =>
      ["clean.sh", "corpus1/data.txt", "data.txt", "da\\ta.txt",
       "corpus1/da\\ta.txt"].contains p }

/-! ### Helper lemmas -/

theorem jsonStrs_map_str (l : List String) :
    jsonStrs (l.map Json.str) = some l := by
  induction l with
  | nil => rfl
  | cons h t ih => simp [jsonStrs, ih]

theorem jsonToValue_valueToJson (v : Value) (j : Json)
    (h : valueToJson v = Except.ok j) : jsonToValue j = some v := by
  cases v <;> simp [valueToJson] at h <;> subst h <;>
    simp [jsonToValue, jsonStrs_map_str]

theorem jsonVals_valsToJson (vs : List Value) :
    ∀ js, valsToJson vs = Except.ok js → jsonVals js = some vs := by
  induction vs with
  | nil =>
    intro js h
    simp [valsToJson] at h
    subst h
    rfl
  | cons v t ih =>
    intro js h
    unfold valsToJson at h
    cases hv : valueToJson v with
    | error e => rw [hv] at h; simp at h
    | ok j0 =>
      rw [hv] at h
      cases ht : valsToJson t with
      | error e => rw [ht] at h; simp at h
      | ok js0 =>
        rw [ht] at h
        simp at h
        subst h
        simp [jsonVals, jsonToValue_valueToJson v j0 hv, ih js0 ht]

theorem jsonInner_innerToJson (l : List (String × List Value)) :
    ∀ js, innerToJson l = Except.ok js → jsonInner js = some l := by
  induction l with
  | nil =>
    intro js h
    simp [innerToJson] at h
    subst h
    rfl
  | cons e t ih =>
    intro js h
    obtain ⟨an, vs⟩ := e
    unfold innerToJson at h
    cases hv : valsToJson vs with
    | error e0 => rw [hv] at h; simp at h
    | ok js0 =>
      rw [hv] at h
      cases ht : innerToJson t with
      | error e0 => rw [ht] at h; simp at h
      | ok rest =>
        rw [ht] at h
        simp at h
        subst h
        simp [jsonInner, jsonVals_valsToJson vs js0 hv, ih rest ht]

theorem jsonOuter_outerToJson (d : RegistryMap) :
    ∀ js, outerToJson d = Except.ok js → jsonOuter js = some d := by
  induction d with
  | nil =>
    intro js h
    simp [outerToJson] at h
    subst h
    rfl
  | cons e t ih =>
    intro js h
    obtain ⟨cn, inner⟩ := e
    unfold outerToJson at h
    cases hv : innerToJson inner with
    | error e0 => rw [hv] at h; simp at h
    | ok i0 =>
      rw [hv] at h
      cases ht : outerToJson t with
      | error e0 => rw [ht] at h; simp at h
      | ok rest =>
        rw [ht] at h
        simp at h
        subst h
        simp [jsonOuter, jsonInner_innerToJson inner i0 hv, ih rest ht]

theorem valueToJson_error_typeError (v : Value) (e : Err)
    (h : valueToJson v = Except.error e) : e = Err.typeError := by
  cases v <;> simp [valueToJson] at h <;> exact h.symm

theorem valsToJson_error_typeError (vs : List Value) :
    ∀ e, valsToJson vs = Except.error e → e = Err.typeError := by
  induction vs with
  | nil => intro e h; simp [valsToJson] at h
  | cons v t ih =>
    intro e h
    unfold valsToJson at h
    cases hv : valueToJson v with
    | error e0 =>
      rw [hv] at h
      simp at h
      subst h
      exact valueToJson_error_typeError v e0 hv
    | ok j0 =>
      rw [hv] at h
      cases ht : valsToJson t with
      | error e0 =>
        rw [ht] at h
        simp at h
        subst h
        exact ih e0 ht
      | ok js0 => rw [ht] at h; simp at h

theorem innerToJson_error_typeError (l : List (String × List Value)) :
    ∀ e, innerToJson l = Except.error e → e = Err.typeError := by
  induction l with
  | nil => intro e h; simp [innerToJson] at h
  | cons p t ih =>
    intro e h
    obtain ⟨an, vs⟩ := p
    unfold innerToJson at h
    cases hv : valsToJson vs with
    | error e0 =>
      rw [hv] at h
      simp at h
      subst h
      exact valsToJson_error_typeError vs e0 hv
    | ok js0 =>
      rw [hv] at h
      cases ht : innerToJson t with
      | error e0 =>
        rw [ht] at h
        simp at h
        subst h
        exact ih e0 ht
      | ok rest => rw [ht] at h; simp at h

theorem outerToJson_error_typeError (d : RegistryMap) :
    ∀ e, outerToJson d = Except.error e → e = Err.typeError := by
  induction d with
  | nil => intro e h; simp [outerToJson] at h
  | cons p t ih =>
    intro e h
    obtain ⟨cn, inner⟩ := p
    unfold outerToJson at h
    cases hv : innerToJson inner with
    | error e0 =>
      rw [hv] at h
      simp at h
      subst h
      exact innerToJson_error_typeError inner e0 hv
    | ok i0 =>
      rw [hv] at h
      cases ht : outerToJson t with
      | error e0 =>
        rw [ht] at h
        simp at h
        subst h
        exact ih e0 ht
      | ok rest => rw [ht] at h; simp at h

theorem registryToJson_error_typeError (d : RegistryMap) (e : Err)
    (h : registryToJson d = Except.error e) : e = Err.typeError := by
  unfold registryToJson at h
  cases ho : outerToJson d with
  | error e0 =>
    rw [ho] at h
    simp [Except.map] at h
    subst h
    exact outerToJson_error_typeError d e0 ho
  | ok outer => rw [ho] at h; simp [Except.map] at h

/-- The invariant of spec section 4.1 / 8: no attribute-name key of the
registry mapping is one of the excluded names `format`, `encoding`,
`langs` (exactly the names `_allow_new` rejects). -/
def noExcludedKeys (d : RegistryMap) : Bool :=
  d.all (fun e => e.2.all (fun a => allowNew a.1))

/-- `noExcludedKeys` lifted to a possibly-uninitialized registry. -/
def noExcludedKeysGI : Option RegistryMap → Bool
  | Option.none => true
  | some d => noExcludedKeys d

theorem assocGet_all {α : Type} (p : α → Bool) (l : List (String × α))
    (k : String) (hl : l.all (fun e => p e.2) = true) (i : α)
    (hi : assocGet l k = some i) : p i = true := by
  induction l with
  | nil => simp [assocGet] at hi
  | cons e t ih =>
    obtain ⟨k', v⟩ := e
    rw [List.all_cons, Bool.and_eq_true] at hl
    unfold assocGet at hi
    by_cases hk : (k' == k) = true
    · rw [if_pos hk] at hi
      cases hi
      exact hl.1
    · rw [if_neg hk] at hi
      exact ih hl.2 hi

theorem assocSet_all {α : Type} (p : String × α → Bool)
    (l : List (String × α)) (k : String) (v : α)
    (hl : l.all p = true) (hkv : p (k, v) = true) :
    (assocSet l k v).all p = true := by
  induction l with
  | nil => simp [assocSet, hkv]
  | cons e t ih =>
    obtain ⟨k', v'⟩ := e
    rw [List.all_cons, Bool.and_eq_true] at hl
    unfold assocSet
    by_cases hk : (k' == k) = true
    · rw [if_pos hk, List.all_cons, Bool.and_eq_true]
      exact ⟨hkv, hl.2⟩
    · rw [if_neg hk, List.all_cons, Bool.and_eq_true]
      exact ⟨hl.1, ih hl.2⟩

theorem recordOne_noExcluded (cn an : String) (v : Value) (d : RegistryMap)
    (han : allowNew an = true) (hd : noExcludedKeys d = true) :
    noExcludedKeys (recordOne cn an v d) = true := by
  unfold noExcludedKeys at *
  unfold recordOne
  apply assocSet_all _ _ _ _ hd
  apply assocSet_all
  · cases hi : assocGet d cn with
    | none => simp [hi]
    | some i =>
      simp only [hi, Option.getD_some]
      exact assocGet_all (fun i => i.all (fun a => allowNew a.1)) d cn hd i hi
  · simpa using han

theorem addGlobalAttributes_noExcluded (cn : String)
    (ga : String → Option Value) (ns : List String) :
    ∀ d, noExcludedKeys d = true →
      noExcludedKeys (addGlobalAttributes cn ga ns d).1 = true := by
  induction ns with
  | nil => intro d hd; exact hd
  | cons n t ih =>
    intro d hd
    unfold addGlobalAttributes
    cases hn : allowNew n with
    | false => simpa [hn] using hd
    | true =>
      simp only [hn, Bool.not_true, Bool.false_eq_true, if_false]
      cases hg : ga n with
      | none => simpa using hd
      | some v => exact ih _ (recordOne_noExcluded cn n v d hn hd)

theorem action_init_noExcluded (fs : FS) (name src tgt : String)
    (script : Option String) (order : Int) (g : Option RegistryMap)
    (hg : noExcludedKeysGI g = true) :
    noExcludedKeysGI (Action.init fs name src tgt script order g).1 = true := by
  cases g with
  | none => rfl
  | some d =>
    cases hCF : Action.checkFields fs ⟨name, src, tgt, script, order⟩ with
    | some e => simpa [Action.init, hCF, noExcludedKeysGI] using hg
    | none =>
      have h := addGlobalAttributes_noExcluded "Action"
        (Action.getattr ⟨name, src, tgt, script, order⟩)
        ["name", "src", "tgt", "script", "order"] d
        (by simpa [noExcludedKeysGI] using hg)
      cases hAG : addGlobalAttributes "Action"
          (Action.getattr ⟨name, src, tgt, script, order⟩)
          ["name", "src", "tgt", "script", "order"] d with
      | mk d' oe =>
        rw [hAG] at h
        cases oe <;> simpa [Action.init, hCF, hAG, noExcludedKeysGI] using h

theorem corpusversion_init_noExcluded (fs : FS) (date : String)
    (prev : Option String) (path provider : String) (langs : List String)
    (parallel : Bool) (encoding format_ : String)
    (released license_ : Option String) (actions : List Action)
    (g : Option RegistryMap) (hg : noExcludedKeysGI g = true) :
    noExcludedKeysGI (CorpusVersion.init fs date prev path provider langs
      parallel encoding format_ released license_ actions g).1 = true := by
  cases g with
  | none => rfl
  | some d =>
    cases hSP : strptime date with
    | error e => simpa [CorpusVersion.init, hSP, noExcludedKeysGI] using hg
    | ok dt =>
      cases hCF : CorpusVersion.checkFields fs
          ⟨dt, prev, path, provider, langs, parallel, encoding, format_,
           released, license_, actions⟩ with
      | some e => simpa [CorpusVersion.init, hSP, hCF, noExcludedKeysGI] using hg
      | none =>
        have h := addGlobalAttributes_noExcluded "CorpusVersion"
          (CorpusVersion.getattr ⟨dt, prev, path, provider, langs, parallel,
            encoding, format_, released, license_, actions⟩)
          ["date", "prev", "path", "provider", "lang", "parallel",
           "encoding", "format", "released", "actions"] d
          (by simpa [noExcludedKeysGI] using hg)
        cases hAG : addGlobalAttributes "CorpusVersion"
            (CorpusVersion.getattr ⟨dt, prev, path, provider, langs, parallel,
              encoding, format_, released, license_, actions⟩)
            ["date", "prev", "path", "provider", "lang", "parallel",
             "encoding", "format", "released", "actions"] d with
        | mk d' oe =>
          rw [hAG] at h
          cases oe <;>
            simpa [CorpusVersion.init, hSP, hCF, hAG, noExcludedKeysGI] using h

theorem corpus_init_noExcluded (dir_name pretty_name : String)
    (corpus_versions : List CorpusVersion) (g : Option RegistryMap)
    (hg : noExcludedKeysGI g = true) :
    noExcludedKeysGI (Corpus.init dir_name pretty_name corpus_versions g).1 = true := by
  cases g with
  | none => rfl
  | some d =>
    cases hCF : Corpus.checkFields ⟨dir_name, pretty_name, corpus_versions⟩ with
    | some e => simpa [Corpus.init, hCF, noExcludedKeysGI] using hg
    | none =>
      have h := addGlobalAttributes_noExcluded "Corpus"
        (Corpus.getattr ⟨dir_name, pretty_name, corpus_versions⟩)
        ["dirname", "pretty_name", "corpus_versions"] d
        (by simpa [noExcludedKeysGI] using hg)
      cases hAG : addGlobalAttributes "Corpus"
          (Corpus.getattr ⟨dir_name, pretty_name, corpus_versions⟩)
          ["dirname", "pretty_name", "corpus_versions"] d with
      | mk d' oe =>
        rw [hAG] at h
        cases oe <;> simpa [Corpus.init, hCF, hAG, noExcludedKeysGI] using h

/-! ### Claim theorems -/

/-- C1: the claim states that for every Action input satisfying the field
invariants of spec section 3 the construction succeeds and registers the
attribute values.  The code refutes it: with the script absent (and order 0,
so all invariants hold), line 173 evaluates `self.script.exists()` before
the `or self.script is None` alternative and raises `AttributeError`; with a
valid present script, line 174 evaluates `self.script[-3:]` on a
`pathlib.Path`, which is not subscriptable, and raises `TypeError`.  In
both cases no value is registered. -/
theorem c1_valid_action_inputs_raise :
    Action.init fs0 "tokenization" "pdf" "txt" Option.none 0 (some [])
      = (some [], Except.error Err.attributeError)
    ∧ Action.init fs0 "tokenization" "pdf" "txt" (some "clean.sh") 1 (some [])
      = (some [], Except.error Err.typeError) := ⟨rfl, rfl⟩

/-- C2: the claim states that a CorpusVersion with `langs = ['xx']` fails
with ValidationError (which holds: the first conjunct is an
`AssertionError`) and that one with `langs = ['en']` and every other
attribute valid per spec section 3 succeeds.  The code refutes the second
half: line 227 (`assert '/' not in self.path.name and
not '\\' not in self.path.name`) requires the filename to CONTAIN a
backslash, so the spec-valid path `corpus1/data.txt` (existing, regular,
relative, separator-free filename) is rejected with `AssertionError`. -/
theorem c2_corpusversion_en_raises :
    CorpusVersion.init fs0 "20200101T120000" Option.none "corpus1/data.txt"
        "temu" ["en"] false "utf-8" "txt" Option.none (some "cc-by-4.0") []
        (some [])
      = (some [], Except.error Err.assertionError)
    ∧ CorpusVersion.init fs0 "20200101T120000" Option.none "corpus1/data.txt"
        "temu" ["xx"] false "utf-8" "txt" Option.none (some "cc-by-4.0") []
        (some [])
      = (some [], Except.error Err.assertionError) := ⟨rfl, rfl⟩

/-- A corpus version with `prev = None` whose path is `corpus1/v1.txt`,
used by the C3 counterexample. -/
def c3v1 : CorpusVersion :=
  ⟨⟨2020, 1, 1, 12, 0, 0⟩, Option.none, "corpus1/v1.txt", "temu", ["en"],
   false, "utf-8", "txt", Option.none, some "cc0", []⟩

/-- A corpus version whose `prev` is the string `corpus1/v1.txt`, i.e. the
path of `c3v1`, forming a valid single-root chain after it. -/
def c3v2 : CorpusVersion :=
  ⟨⟨2020, 2, 1, 12, 0, 0⟩, some "corpus1/v1.txt", "corpus1/v2.txt", "temu",
   ["en"], false, "utf-8", "txt", Option.none, some "cc0", []⟩

/-- C3: the claim states that a Corpus whose versions form a valid
single-root chain is constructed successfully.  The code refutes it: for a
two-version chain, `_check_prev` tests the `str` value `prev` for
membership of a set of `pathlib.Path` objects, which is always false in
Python, so the valid chain fails with `AssertionError`; and even a
single-version corpus, whose lineage check passes, raises `AttributeError`
because `_add_global_attributes` looks up the misspelt attribute `dirname`
(the attribute is `dir_name`). -/
theorem c3_valid_chain_raises :
    Corpus.init "mycorpus" "My Corpus" [c3v1, c3v2] (some [])
      = (some [], Except.error Err.assertionError)
    ∧ Corpus.init "mycorpus" "My Corpus" [c3v1] (some [])
      = (some [], Except.error Err.attributeError) := ⟨rfl, rfl⟩

/-- C4: the claim states that a path that exists, is a regular file, is
relative and has a separator-free filename passes the path validation of
CorpusVersion construction, and that a filename containing a separator is
rejected.  The code inverts the backslash half of this: with every other
field valid, the filename `data.txt` (no separators) fails the validation
with `AssertionError`, while the filename `da\ta.txt` (containing the
separator `\`) passes the entire field check, because line 227's
`not '\\' not in self.path.name` demands a backslash IN the filename. -/
theorem c4_path_validation_inverted :
    CorpusVersion.checkFields fs0
        ⟨⟨2020, 1, 1, 12, 0, 0⟩, Option.none, "data.txt", "temu", ["en"],
         false, "utf-8", "txt", Option.none, some "cc0", []⟩
      = some Err.assertionError
    ∧ CorpusVersion.checkFields fs0
        ⟨⟨2020, 1, 1, 12, 0, 0⟩, Option.none, "da\\ta.txt", "temu", ["en"],
         false, "utf-8", "txt", Option.none, some "cc0", []⟩
      = Option.none := ⟨rfl, rfl⟩

/-- C5: the claim states that every construction failure is a
ValidationError and leaves the registry completely unchanged.  The code
refutes both halves at once: a CorpusVersion whose fields all pass
`_check_fields` (its filename contains the required backslash) then crashes
inside `_add_global_attributes` with `AttributeError` on the misspelt
attribute name `lang` — after `date`, `prev`, `path` and `provider` have
already been recorded, so the failed construction leaves four attribute
values in the registry and raises a non-validation error kind. -/
theorem c5_partial_registration_on_failure :
    CorpusVersion.init fs0 "20200101T120000" Option.none "corpus1/da\\ta.txt"
        "temu" ["en", "es"] false "utf-8" "txt" Option.none (some "cc0") []
        (some [])
      = (some [("CorpusVersion",
          [("date", [Value.dt ⟨2020, 1, 1, 12, 0, 0⟩]),
           ("prev", [Value.pynone]),
           ("path", [Value.path "corpus1/da\\ta.txt"]),
           ("provider", [Value.str "temu"])])],
         Except.error Err.attributeError) := rfl

/-- C6: the claim states that every eligible attribute of the list passed
to the record-values operation is recorded, regardless of its position.
The code refutes it: `_add_global_attributes` executes `return` (not
`continue`) when `_allow_new` rejects a name, so for the list
`['provider', 'encoding', 'released']` the eligible `released` attribute
(holding a URL) is silently never recorded — the call records `provider`,
stops at the ineligible `encoding`, and finishes without error and without
a `released` key. -/
theorem c6_eligible_after_ineligible_skipped :
    addGlobalAttributes "CorpusVersion"
      (CorpusVersion.getattr
        ⟨⟨2020, 1, 1, 12, 0, 0⟩, Option.none, "corpus1/v1.txt", "temu",
         ["en"], false, "utf-8", "txt", some "https://zenodo.org/record/123",
         some "cc0", []⟩)
      ["provider", "encoding", "released"] []
      = ([("CorpusVersion", [("provider", [Value.str "temu"])])],
         Option.none) := rfl

/-- C7 (confirmed): round-trip — for every initialized registry whose
serialization succeeds, writing the mapping to storage and loading that
storage into a fresh uninitialized registry instance yields exactly the
original mapping, with no error. -/
theorem c7_save_load_roundtrip (d : RegistryMap) (file : Json)
    (h : GlobalInformation.writeToDisk (some d) = Except.ok file) :
    GlobalInformation.loadFromDisk Option.none file = (some d, Option.none) := by
  have h' : registryToJson d = Except.ok file := h
  unfold registryToJson at h'
  cases ho : outerToJson d with
  | error e => rw [ho] at h'; simp [Except.map] at h'
  | ok outer =>
    rw [ho] at h'
    simp [Except.map] at h'
    subst h'
    simp [GlobalInformation.loadFromDisk, jsonToRegistry,
          jsonOuter_outerToJson d outer ho]

/-- Witness for C7: a concrete registry holding a string and two integers
round-trips through the persisted JSON file unchanged. -/
theorem c7_save_load_roundtrip_witness :
    GlobalInformation.loadFromDisk Option.none
      (Json.obj [("Action",
        Json.obj [("name", Json.arr [Json.str "tokenization"]),
                  ("order", Json.arr [Json.int 0, Json.int 1])])])
      = (some [("Action",
          [("name", [Value.str "tokenization"]),
           ("order", [Value.int 0, Value.int 1])])], Option.none) :=
  c7_save_load_roundtrip
    [("Action", [("name", [Value.str "tokenization"]),
                 ("order", [Value.int 0, Value.int 1])])]
    (Json.obj [("Action",
      Json.obj [("name", Json.arr [Json.str "tokenization"]),
                ("order", Json.arr [Json.int 0, Json.int 1])])])
    rfl

/-- C8 counterexample: the claim says lifecycle violations fail with a
state error DISTINCT from field validation.  In the code both are the very
same `AssertionError`: double-initialization, load-after-initialization and
a field-validation failure (empty Action name) all raise
`Err.assertionError`. -/
theorem c8_state_error_not_distinct :
    (GlobalInformation.initDict (some [])).2 = some Err.assertionError
    ∧ (GlobalInformation.loadFromDisk (some []) (Json.obj [])).2
        = some Err.assertionError
    ∧ (Action.init fs0 "" "pdf" "txt" Option.none 0 (some [])).2
        = Except.error Err.assertionError := ⟨rfl, rfl, rfl⟩

/-- C8 (amended): the lifecycle gating itself holds — load and
initializeEmpty fail exactly when the registry is already initialized, save
fails with that error exactly when it is not yet initialized (its only
other failure mode is the serialization `TypeError`), and in the
non-failing states each operation performs its deserialization,
empty-initialization, or serialization — but the error raised is the same
`AssertionError` kind used for field validation, not a distinct state
error. -/
theorem c8_lifecycle_gating (g : Option RegistryMap) (file : Json) :
    ((GlobalInformation.loadFromDisk g file).2 = some Err.assertionError
      ↔ g ≠ Option.none)
    ∧ ((GlobalInformation.initDict g).2 = some Err.assertionError
      ↔ g ≠ Option.none)
    ∧ (GlobalInformation.writeToDisk g = Except.error Err.assertionError
      ↔ g = Option.none)
    ∧ (∀ d, jsonToRegistry file = some d →
        GlobalInformation.loadFromDisk Option.none file = (some d, Option.none))
    ∧ GlobalInformation.initDict Option.none = (some [], Option.none)
    ∧ (∀ d j, registryToJson d = Except.ok j →
        GlobalInformation.writeToDisk (some d) = Except.ok j) := by
  refine ⟨?_, ?_, ?_, ?_, ?_, ?_⟩
  · cases g with
    | none =>
      simp only [GlobalInformation.loadFromDisk]
      cases jsonToRegistry file <;> simp
    | some d => simp [GlobalInformation.loadFromDisk]
  · cases g <;> simp [GlobalInformation.initDict]
  · cases g with
    | none => simp [GlobalInformation.writeToDisk]
    | some d =>
      simp only [GlobalInformation.writeToDisk]
      constructor
      · intro h
        exact absurd (registryToJson_error_typeError d _ h) (by decide)
      · intro h
        cases h
  · intro d hd
    simp [GlobalInformation.loadFromDisk, hd]
  · rfl
  · intro d j hj
    simpa [GlobalInformation.writeToDisk] using hj

/-- Witness for C8: loading a concrete one-entry storage file into a fresh
uninitialized registry deserializes it without error. -/
theorem c8_lifecycle_gating_witness :
    GlobalInformation.loadFromDisk Option.none
      (Json.obj [("Corpus", Json.obj [("pretty_name", Json.arr [Json.str "My Corpus"])])])
      = (some [("Corpus", [("pretty_name", [Value.str "My Corpus"])])], Option.none) :=
  (c8_lifecycle_gating Option.none
    (Json.obj [("Corpus", Json.obj [("pretty_name", Json.arr [Json.str "My Corpus"])])])).2.2.2.1
    [("Corpus", [("pretty_name", [Value.str "My Corpus"])])] rfl

/-- C9 (confirmed): the excluded attribute names `format`, `encoding` and
`langs` never appear as attribute-name keys of the registry: the invariant
`noExcludedKeys` is preserved by the record-values operation
`_add_global_attributes` for every attribute-name list, and consequently by
every Action, CorpusVersion and Corpus construction (successful or not),
since those mutate the registry only through that operation. -/
theorem c9_excluded_names_never_registry_keys :
    (∀ (cn : String) (ga : String → Option Value) (ns : List String)
        (d : RegistryMap), noExcludedKeys d = true →
      noExcludedKeys (addGlobalAttributes cn ga ns d).1 = true)
    ∧ (∀ (fs : FS) (name src tgt : String) (script : Option String)
        (order : Int) (g : Option RegistryMap), noExcludedKeysGI g = true →
      noExcludedKeysGI (Action.init fs name src tgt script order g).1 = true)
    ∧ (∀ (fs : FS) (date : String) (prev : Option String)
        (path provider : String) (langs : List String) (parallel : Bool)
        (encoding format_ : String) (released license_ : Option String)
        (actions : List Action) (g : Option RegistryMap),
        noExcludedKeysGI g = true →
      noExcludedKeysGI (CorpusVersion.init fs date prev path provider langs
        parallel encoding format_ released license_ actions g).1 = true)
    ∧ (∀ (dir_name pretty_name : String)
        (corpus_versions : List CorpusVersion) (g : Option RegistryMap),
        noExcludedKeysGI g = true →
      noExcludedKeysGI (Corpus.init dir_name pretty_name corpus_versions g).1
        = true) :=
  ⟨fun cn ga ns d => addGlobalAttributes_noExcluded cn ga ns d,
   fun fs name src tgt script order g =>
     action_init_noExcluded fs name src tgt script order g,
   fun fs date prev path provider langs parallel encoding format_ released
       license_ actions g =>
     corpusversion_init_noExcluded fs date prev path provider langs parallel
       encoding format_ released license_ actions g,
   fun dir_name pretty_name corpus_versions g =>
     corpus_init_noExcluded dir_name pretty_name corpus_versions g⟩

/-- Witness for C9: a concrete Action construction starting from the empty
registry leaves no excluded attribute-name key. -/
theorem c9_excluded_names_witness :
    noExcludedKeysGI
      (Action.init fs0 "tagging" "xml" "xml" Option.none 0 (some [])).1
      = true :=
  c9_excluded_names_never_registry_keys.2.1 fs0 "tagging" "xml" "xml"
    Option.none 0 (some []) rfl

/-- C10 (confirmed): constructing any entity with an uninitialized registry
fails immediately with the `Component.__init__` assertion, for every choice
of field values — before any field validation (even invalid fields produce
the same error) and without any registry recording (the state stays
uninitialized). -/
theorem c10_uninitialized_registry_rejected :
    (∀ (fs : FS) (name src tgt : String) (script : Option String)
        (order : Int),
      Action.init fs name src tgt script order Option.none
        = (Option.none, Except.error Err.assertionError))
    ∧ (∀ (fs : FS) (date : String) (prev : Option String)
        (path provider : String) (langs : List String) (parallel : Bool)
        (encoding format_ : String) (released license_ : Option String)
        (actions : List Action),
      CorpusVersion.init fs date prev path provider langs parallel encoding
          format_ released license_ actions Option.none
        = (Option.none, Except.error Err.assertionError))
    ∧ (∀ (dir_name pretty_name : String)
        (corpus_versions : List CorpusVersion),
      Corpus.init dir_name pretty_name corpus_versions Option.none
        = (Option.none, Except.error Err.assertionError)) :=
  ⟨fun _ _ _ _ _ _ => rfl,
   fun _ _ _ _ _ _ _ _ _ _ _ _ => rfl,
   fun _ _ _ => rfl⟩

end Metadata
